import Mathlib

/-!
Shallow embedding of the cursor subsystem of the repository
(src/src/lib/cursor/CursorManager.ts), the only component with real
state-machine behaviour: raw/smoothed/normalized position, velocity,
a style stack, visibility flags and a subscriber set, updated by event
handlers and a per-frame tick.

Numbers are modelled as exact rationals (ℚ); DOM side effects
(document.body.style.cursor, listener registration) are modelled as
explicit state fields or parameters.  Subscriber callbacks are modelled
by ids (ℕ); an invocation of a callback is recorded as the snapshot value
it receives.
-/

namespace Cursor

/-- A cursor style token (the TypeScript type CursorStyle is a union of
string literals such as "default", "pointer", "grab", "none"). -/
abbrev CursorStyle := String

/-- Position record {x, y} from src/src/lib/cursor/types (coordinates in
screen pixels, modelled exactly). -/
structure Position where
  x : ℚ
  y : ℚ
deriving DecidableEq, Repr

/-- Modelled from the spec: the helper lerp from src/lib/math is imported by
CursorManager.ts but its file is not in the sources; the spec glossary
defines it as linear interpolation a + (b-a)*t. -/
def lerp (a b t : ℚ) : ℚ := a + (b - a) * t

/-- The mutable fields of the CursorManager class.  listenersAttached and
tickerAttached record the DOM-listener / GSAP-ticker registrations that
init performs and destroy undoes; isInit models the private field
_isInitialized. -/
structure ManagerState where
  position : Position
  smoothPosition : Position
  velocity : Position
  previousPosition : Position
  isVisible : Bool
  isInViewport : Bool
  styleStack : List CursorStyle
  lerpFactor : ℚ
  subscribers : Finset ℕ
  isInit : Bool
  listenersAttached : Bool
  tickerAttached : Bool
deriving DecidableEq

/-- Top of a style stack with the "default" fallback:
this._styleStack.at(-1) ?? "default". -/
def topStyle (stack : List CursorStyle) : CursorStyle :=
  (stack.getLast?).getD "default"

/-- The style getter: top of the style stack. -/
def style (s : ManagerState) : CursorStyle :=
  topStyle s.styleStack

/-- Constructor options (CursorManagerOptions); a missing field takes the
constructor default. -/
structure CursorManagerOptions where
  lerpFactor : Option ℚ := none
  autoInit : Option Bool := none
  initialStyle : Option CursorStyle := none

/-- init(): no-op when already initialized or no window is present
(windowPresent models globalThis.window !== undefined); otherwise registers
the three mouse listeners and the ticker callback and marks initialized. -/
def init (windowPresent : Bool) (s : ManagerState) : ManagerState :=
  if s.isInit || !windowPresent then s
  else { s with listenersAttached := true, tickerAttached := true, isInit := true }

/-- destroy(): no-op when not initialized; otherwise removes the listeners
and the ticker callback, clears the subscriber set and marks uninitialized. -/
def destroy (s : ManagerState) : ManagerState :=
  if !s.isInit then s
  else { s with listenersAttached := false, tickerAttached := false,
                subscribers := ∅, isInit := false }

/-- The private constructor: fields start at their declared initializers,
lerpFactor and the style stack come from the options (defaults 0.1 and
"default"), then init runs when autoInit (default true). -/
def mkCursorManager (opts : CursorManagerOptions) (windowPresent : Bool) :
    ManagerState :=
  let base : ManagerState :=
    { position := ⟨0, 0⟩
      smoothPosition := ⟨0, 0⟩
      velocity := ⟨0, 0⟩
      previousPosition := ⟨0, 0⟩
      isVisible := true
      isInViewport := false
      styleStack := [opts.initialStyle.getD "default"]
      lerpFactor := opts.lerpFactor.getD (1/10)
      subscribers := ∅
      isInit := false
      listenersAttached := false
      tickerAttached := false }
  if opts.autoInit.getD true then init windowPresent base else base

/-- getInstance(options): returns the existing singleton when there is one,
otherwise constructs a new manager from the options. -/
def getInstance (inst : Option ManagerState) (opts : CursorManagerOptions)
    (windowPresent : Bool) : ManagerState :=
  inst.getD (mkCursorManager opts windowPresent)

/-- The state a fresh manager has after getInstance() with default options
in a browser environment. -/
def initialState : ManagerState := mkCursorManager {} true

/-- _handleMouseMove(e): stores the client coordinates in the raw position
and marks the cursor in-viewport. -/
def handleMouseMove (s : ManagerState) (clientX clientY : ℚ) : ManagerState :=
  { s with position := ⟨clientX, clientY⟩, isInViewport := true }

/-- _handleMouseEnter(): marks in-viewport and visible. -/
def handleMouseEnter (s : ManagerState) : ManagerState :=
  { s with isInViewport := true, isVisible := true }

/-- _handleMouseLeave(): marks out of viewport. -/
def handleMouseLeave (s : ManagerState) : ManagerState :=
  { s with isInViewport := false }

/-- _update(), the per-frame tick: velocity := position - previousPosition,
previousPosition := position, smoothPosition lerped toward position with
the current factor.  (_notifySubscribers mutates nothing.) -/
def tick (s : ManagerState) : ManagerState :=
  { s with
      velocity := ⟨s.position.x - s.previousPosition.x,
                   s.position.y - s.previousPosition.y⟩
      previousPosition := s.position
      smoothPosition := ⟨lerp s.smoothPosition.x s.position.x s.lerpFactor,
                         lerp s.smoothPosition.y s.position.y s.lerpFactor⟩ }

/-- The normalizedPosition getter; the viewport argument models
globalThis.window (none = headless) with its innerWidth/innerHeight. -/
def normalizedPosition (viewport : Option (ℚ × ℚ)) (s : ManagerState) :
    Position :=
  match viewport with
  | none => ⟨0, 0⟩
  | some (w, h) => ⟨s.position.x / w * 2 - 1, s.position.y / h * 2 - 1⟩

/-- The snapshot record returned by getState(). -/
structure CursorState where
  position : Position
  normalizedPosition : Position
  smoothPosition : Position
  velocity : Position
  isVisible : Bool
  isInViewport : Bool
  style : CursorStyle
deriving DecidableEq

/-- getState(): a value snapshot of the current state. -/
def getState (viewport : Option (ℚ × ℚ)) (s : ManagerState) : CursorState :=
  { position := s.position
    normalizedPosition := normalizedPosition viewport s
    smoothPosition := s.smoothPosition
    velocity := s.velocity
    isVisible := s.isVisible
    isInViewport := s.isInViewport
    style := style s }

/-- setLerpFactor(factor): stores Math.max(0.01, Math.min(1, factor)). -/
def setLerpFactor (s : ManagerState) (factor : ℚ) : ManagerState :=
  { s with lerpFactor := max (1/100) (min 1 factor) }

/-- pushStyle(style): appends to the stack (Array.prototype.push). -/
def pushStyle (s : ManagerState) (st : CursorStyle) : ManagerState :=
  { s with styleStack := s.styleStack ++ [st] }

/-- popStyle(): removes the top element only when more than one element
remains; never pops the base style. -/
def popStyle (s : ManagerState) : ManagerState :=
  if 1 < s.styleStack.length then { s with styleStack := s.styleStack.dropLast }
  else s

/-- setBaseStyle(style): overwrites index 0 of the stack. -/
def setBaseStyle (s : ManagerState) (st : CursorStyle) : ManagerState :=
  { s with styleStack := s.styleStack.set 0 st }

/-- hide(): marks invisible and pushes "none". -/
def hide (s : ManagerState) : ManagerState :=
  pushStyle { s with isVisible := false } "none"

/-- The while loop of show(): pop while the stack has more than one element
and the top is "none".  Embedded with explicit fuel; each iteration shortens
the stack by one, so stack.length iterations always suffice. -/
def dropNonesFuel : ℕ → List CursorStyle → List CursorStyle
  | 0, stack => stack
  | n + 1, stack =>
      if 1 < stack.length ∧ topStyle stack = "none" then
        dropNonesFuel n stack.dropLast
      else stack

/-- Pop all trailing "none" entries (the loop of show() run to completion). -/
def dropTrailingNones (stack : List CursorStyle) : List CursorStyle :=
  dropNonesFuel stack.length stack

/-- show(): marks visible, then pops trailing "none" styles down to the
base element. -/
def show' (s : ManagerState) : ManagerState :=
  { s with isVisible := true, styleStack := dropTrailingNones s.styleStack }

/-- snapToPosition(): smoothPosition := position. -/
def snapToPosition (s : ManagerState) : ManagerState :=
  { s with smoothPosition := s.position }

/-- subscribe(callback): adds the callback to the subscriber set and
immediately invokes it once with the current snapshot; the second component
lists the snapshots passed to the callback during the call. -/
def subscribe (viewport : Option (ℚ × ℚ)) (s : ManagerState) (cb : ℕ) :
    ManagerState × List CursorState :=
  let s' : ManagerState := { s with subscribers := insert cb s.subscribers }
  (s', [getState viewport s'])

/-! ### Helper lemmas -/

lemma dropNonesFuel_ne_nil (n : ℕ) (l : List CursorStyle) (h : l ≠ []) :
    dropNonesFuel n l ≠ [] := by
  induction n generalizing l with
  | zero => exact h
  | succ n ih =>
    simp only [dropNonesFuel]
    split
    · next hc =>
      refine ih _ (List.ne_nil_of_length_pos ?_)
      rw [List.length_dropLast]
      omega
    · exact h

lemma dropNonesFuel_eq_self (n : ℕ) (l : List CursorStyle)
    (h : ¬(1 < l.length ∧ topStyle l = "none")) : dropNonesFuel n l = l := by
  cases n with
  | zero => rfl
  | succ n => simp only [dropNonesFuel]; rw [if_neg h]

lemma topStyle_concat (l : List CursorStyle) (a : CursorStyle) :
    topStyle (l ++ [a]) = a := by
  simp [topStyle]

lemma init_lerpFactor (wp : Bool) (s : ManagerState) :
    (init wp s).lerpFactor = s.lerpFactor := by
  unfold init; split <;> rfl

lemma mkCursorManager_lerpFactor (opts : CursorManagerOptions) (wp : Bool) :
    (mkCursorManager opts wp).lerpFactor = opts.lerpFactor.getD (1/10) := by
  simp only [mkCursorManager]
  split
  · rw [init_lerpFactor]
  · rfl

/-! ### Claims -/

/-- C2: the style stack is never empty: every operation (pushStyle, popStyle,
setBaseStyle, hide, show, tick) preserves non-emptiness, and popStyle on a
single-element stack leaves the whole state unchanged (a no-op). -/
theorem styleStack_never_empty (s : ManagerState) (st : CursorStyle)
    (h : s.styleStack ≠ []) :
    (pushStyle s st).styleStack ≠ [] ∧
    (popStyle s).styleStack ≠ [] ∧
    (setBaseStyle s st).styleStack ≠ [] ∧
    (hide s).styleStack ≠ [] ∧
    (show' s).styleStack ≠ [] ∧
    (tick s).styleStack ≠ [] ∧
    (∀ c, s.styleStack = [c] → popStyle s = s) := by
  refine ⟨by simp [pushStyle], ?_, ?_, by simp [hide, pushStyle],
          dropNonesFuel_ne_nil _ _ h, h, ?_⟩
  · unfold popStyle
    split
    · next hlt =>
      refine List.ne_nil_of_length_pos ?_
      show 0 < s.styleStack.dropLast.length
      rw [List.length_dropLast]
      omega
    · exact h
  · refine List.ne_nil_of_length_pos ?_
    show 0 < (s.styleStack.set 0 st).length
    rw [List.length_set]
    exact List.length_pos.mpr h
  · intro c hc
    simp [popStyle, hc]

/-- Witness for C2 at the fresh manager state and style "pointer". -/
theorem styleStack_never_empty_witness :
    (popStyle initialState).styleStack ≠ [] ∧ popStyle initialState = initialState :=
  ⟨(styleStack_never_empty initialState "pointer" (by decide)).2.1,
   (styleStack_never_empty initialState "pointer" (by decide)).2.2.2.2.2.2
     "default" (by decide)⟩

/-- C4: each tick sets velocity to raw minus previousRaw and then stores
previousRaw := raw; concretely, from the initial state: tick, move to
(10,5), tick gives velocity (10,5), and a further tick with the raw
position unchanged gives velocity (0,0). -/
theorem tick_velocity_spec :
    (∀ s : ManagerState,
        (tick s).velocity = ⟨s.position.x - s.previousPosition.x,
                             s.position.y - s.previousPosition.y⟩ ∧
        (tick s).previousPosition = s.position) ∧
    (tick (handleMouseMove (tick initialState) 10 5)).velocity = ⟨10, 5⟩ ∧
    (tick (tick (handleMouseMove (tick initialState) 10 5))).velocity = ⟨0, 0⟩ := by
  refine ⟨fun s => ⟨rfl, rfl⟩, ?_, ?_⟩ <;>
    simp [tick, handleMouseMove, initialState, mkCursorManager, init, lerp]

/-- C5: with a known viewport (w,h), the normalized position is
2*raw/size - 1 componentwise; raw (w/2,h/2) maps to (0,0), (0,0) to
(-1,-1), (w,h) to (1,1); with no viewport it is (0,0). -/
theorem normalizedPosition_spec (s : ManagerState) (w h : ℚ)
    (hw : 0 < w) (hh : 0 < h) :
    normalizedPosition (some (w, h)) s =
      ⟨2 * s.position.x / w - 1, 2 * s.position.y / h - 1⟩ ∧
    normalizedPosition (some (w, h)) { s with position := ⟨w/2, h/2⟩ } = ⟨0, 0⟩ ∧
    normalizedPosition (some (w, h)) { s with position := ⟨0, 0⟩ } = ⟨-1, -1⟩ ∧
    normalizedPosition (some (w, h)) { s with position := ⟨w, h⟩ } = ⟨1, 1⟩ ∧
    normalizedPosition none s = ⟨0, 0⟩ := by
  have hw' : w ≠ 0 := ne_of_gt hw
  have hh' : h ≠ 0 := ne_of_gt hh
  refine ⟨?_, ?_, ?_, ?_, rfl⟩ <;>
    simp only [normalizedPosition, Position.mk.injEq] <;>
    constructor <;> field_simp <;> ring

/-- Witness for C5 at a concrete viewport 4x2 and the fresh state. -/
theorem normalizedPosition_spec_witness :
    normalizedPosition (some ((4 : ℚ), 2)) initialState =
      ⟨2 * initialState.position.x / 4 - 1, 2 * initialState.position.y / 2 - 1⟩ :=
  (normalizedPosition_spec initialState 4 2 (by norm_num) (by norm_num)).1

/-- C7: subscribe(cb) records exactly one synchronous invocation of cb,
carrying the current state snapshot, and otherwise only inserts cb into
the subscriber set. -/
theorem subscribe_spec (viewport : Option (ℚ × ℚ)) (s : ManagerState) (cb : ℕ) :
    (subscribe viewport s cb).2 = [getState viewport s] ∧
    (subscribe viewport s cb).1 = { s with subscribers := insert cb s.subscribers } :=
  ⟨rfl, rfl⟩

/-- C8: setLerpFactor stores the clamp of the argument to [0.01, 1] and
changes nothing else; in particular the smoothed position is untouched. -/
theorem setLerpFactor_spec (s : ManagerState) (f : ℚ) :
    setLerpFactor s f = { s with lerpFactor := max (1/100) (min 1 f) } ∧
    (setLerpFactor s f).smoothPosition = s.smoothPosition :=
  ⟨rfl, rfl⟩

/-- C9: the constructor performs no clamping: getInstance with option
lerpFactor f yields a manager whose lerpFactor is exactly f; in
particular -1, below the [0.01, 1] range enforced by setLerpFactor,
is stored as is. -/
theorem lerpFactor_not_clamped_at_construction (f : ℚ) (auto : Option Bool)
    (st : Option CursorStyle) (wp : Bool) :
    (getInstance none { lerpFactor := some f, autoInit := auto,
                        initialStyle := st } wp).lerpFactor = f ∧
    (mkCursorManager { lerpFactor := some (-1), autoInit := none,
                       initialStyle := none } true).lerpFactor = -1 ∧
    ((-1 : ℚ) < 1/100) := by
  refine ⟨?_, ?_, by norm_num⟩ <;>
    simp [getInstance, mkCursorManager_lerpFactor]

/-- C10: the mouse-enter handler only sets isVisible and isInViewport to
true; it does not pop "none" styles, so isVisible = true with top style
"none" is reachable via hide() followed by mouse enter. -/
theorem handleMouseEnter_spec :
    (∀ s : ManagerState,
        handleMouseEnter s = { s with isInViewport := true, isVisible := true }) ∧
    (handleMouseEnter (hide initialState)).isVisible = true ∧
    style (handleMouseEnter (hide initialState)) = "none" := by
  exact ⟨fun s => rfl, rfl, by decide⟩

/-- A reachable state with subscribers but no initialization: the manager
is constructed with autoInit:false and a callback subscribes. -/
def noInitSubscribed : ManagerState :=
  (subscribe none (mkCursorManager { autoInit := some false } true) 0).1

/-- C6 counterexample: destroy() does not clear the subscriber set on a
manager that was never initialized (its guard returns early), so "for
every manager state, after destroy() ... the subscriber set is empty"
fails at such a state. -/
theorem destroy_cex : (destroy noInitSubscribed).subscribers ≠ ∅ := by decide

/-- C6 (amended): destroy() is idempotent on every state; on every
initialized state it removes the listeners and the ticker callback,
empties the subscriber set and marks the manager uninitialized. -/
theorem destroy_spec (s : ManagerState) (hi : s.isInit = true) :
    (destroy s).listenersAttached = false ∧
    (destroy s).tickerAttached = false ∧
    (destroy s).subscribers = ∅ ∧
    (destroy s).isInit = false ∧
    (∀ t : ManagerState, destroy (destroy t) = destroy t) := by
  refine ⟨by simp [destroy, hi], by simp [destroy, hi], by simp [destroy, hi],
          by simp [destroy, hi], ?_⟩
  intro t
  by_cases h : t.isInit <;> simp [destroy, h]

/-- Witness for C6 at the fresh, initialized manager state. -/
theorem destroy_spec_witness :
    (destroy initialState).subscribers = ∅ ∧ (destroy initialState).isInit = false :=
  ⟨(destroy_spec initialState (by decide)).2.2.1,
   (destroy_spec initialState (by decide)).2.2.2.1⟩

/-- C1 counterexample: with prior stack ["default", "none"] (top already
"none", reachable by one hide()), hide() followed by show() pops both
"none" entries, so the pre-hide top style "none" is not restored. -/
theorem hide_show_cex :
    style (show' (hide (hide initialState))) ≠ style (hide initialState) := by
  decide

/-- C1 (amended): for every prior style stack that is nonempty and whose
top is not "none" (or that consists of the base element alone), hide()
followed immediately by show() restores the pre-hide top style exactly. -/
theorem hide_show_restores (s : ManagerState) (hne : s.styleStack ≠ [])
    (h : style s ≠ "none" ∨ s.styleStack.length = 1) :
    style (show' (hide s)) = style s := by
  have hlen : 0 < s.styleStack.length := List.length_pos.mpr hne
  have hnc : ¬(1 < s.styleStack.length ∧ topStyle s.styleStack = "none") := by
    rcases h with h | h
    · exact fun hc => h hc.2
    · exact fun hc => by omega
  have key : dropTrailingNones (s.styleStack ++ ["none"]) = s.styleStack := by
    unfold dropTrailingNones
    rw [List.length_append, List.length_singleton]
    simp only [dropNonesFuel]
    rw [if_pos ⟨by rw [List.length_append, List.length_singleton]; omega,
                topStyle_concat _ _⟩]
    rw [List.dropLast_concat]
    exact dropNonesFuel_eq_self _ _ hnc
  show topStyle (dropTrailingNones (s.styleStack ++ ["none"])) = style s
  rw [key]
  rfl

/-- Witness for C1 at the stack ["default", "pointer"]: push "pointer",
hide gives top "none", show restores top "pointer". -/
theorem hide_show_restores_witness :
    style (show' (hide (pushStyle initialState "pointer"))) =
      style (pushStyle initialState "pointer") :=
  hide_show_restores (pushStyle initialState "pointer") (by decide)
    (Or.inl (by decide))

lemma tick_iterate_position (n : ℕ) (s : ManagerState) :
    (tick^[n] s).position = s.position ∧ (tick^[n] s).lerpFactor = s.lerpFactor := by
  induction n with
  | zero => exact ⟨rfl, rfl⟩
  | succ n ih => rw [Function.iterate_succ_apply']; exact ⟨ih.1, ih.2⟩

lemma tick_iterate_smooth_x (n : ℕ) (s : ManagerState) :
    (tick^[n] s).smoothPosition.x - s.position.x =
      (1 - s.lerpFactor) ^ n * (s.smoothPosition.x - s.position.x) := by
  induction n with
  | zero => simp
  | succ n ih =>
    rw [Function.iterate_succ_apply']
    show lerp (tick^[n] s).smoothPosition.x (tick^[n] s).position.x
        (tick^[n] s).lerpFactor - s.position.x = _
    rw [(tick_iterate_position n s).1, (tick_iterate_position n s).2]
    unfold lerp
    linear_combination (1 - s.lerpFactor) * ih

lemma tick_iterate_smooth_y (n : ℕ) (s : ManagerState) :
    (tick^[n] s).smoothPosition.y - s.position.y =
      (1 - s.lerpFactor) ^ n * (s.smoothPosition.y - s.position.y) := by
  induction n with
  | zero => simp
  | succ n ih =>
    rw [Function.iterate_succ_apply']
    show lerp (tick^[n] s).smoothPosition.y (tick^[n] s).position.y
        (tick^[n] s).lerpFactor - s.position.y = _
    rw [(tick_iterate_position n s).1, (tick_iterate_position n s).2]
    unfold lerp
    linear_combination (1 - s.lerpFactor) * ih

/-- C3: with a factor f, 0 < f ≤ 1, and a fixed raw position, each tick
scales the distance of the smoothed position from the raw position by
(1 - f) in each coordinate, and the distance tends to 0 as the ticks
accumulate (exact rational arithmetic). -/
theorem tick_convergence (f : ℚ) (s : ManagerState) (h0 : 0 < f) (h1 : f ≤ 1)
    (hf : s.lerpFactor = f) :
    (∀ n : ℕ,
        |(tick^[n + 1] s).smoothPosition.x - s.position.x| =
          (1 - f) * |(tick^[n] s).smoothPosition.x - s.position.x| ∧
        |(tick^[n + 1] s).smoothPosition.y - s.position.y| =
          (1 - f) * |(tick^[n] s).smoothPosition.y - s.position.y|) ∧
    Filter.Tendsto
      (fun n : ℕ =>
        |(tick^[n] s).smoothPosition.x - s.position.x| +
        |(tick^[n] s).smoothPosition.y - s.position.y|)
      Filter.atTop (nhds 0) := by
  have h1f : (0 : ℚ) ≤ 1 - f := by linarith
  have habs : |(1 : ℚ) - f| = 1 - f := abs_of_nonneg h1f
  have ex : ∀ n : ℕ, |(tick^[n] s).smoothPosition.x - s.position.x| =
      (1 - f) ^ n * |s.smoothPosition.x - s.position.x| := by
    intro n
    rw [tick_iterate_smooth_x, hf, abs_mul, abs_pow, habs]
  have ey : ∀ n : ℕ, |(tick^[n] s).smoothPosition.y - s.position.y| =
      (1 - f) ^ n * |s.smoothPosition.y - s.position.y| := by
    intro n
    rw [tick_iterate_smooth_y, hf, abs_mul, abs_pow, habs]
  constructor
  · intro n
    constructor
    · rw [ex, ex, pow_succ]; ring
    · rw [ey, ey, pow_succ]; ring
  · have base : Filter.Tendsto (fun n : ℕ => ((1 - f) ^ n : ℚ))
        Filter.atTop (nhds 0) :=
      tendsto_pow_atTop_nhds_zero_of_lt_one h1f (by linarith)
    have tx := base.mul_const
      (|s.smoothPosition.x - s.position.x| + |s.smoothPosition.y - s.position.y|)
    rw [zero_mul] at tx
    refine tx.congr fun n => ?_
    rw [ex, ey]
    ring

/-- Witness for C3 at the fresh state (factor 1/10, raw position (0,0)). -/
theorem tick_convergence_witness :
    Filter.Tendsto
      (fun n : ℕ =>
        |(tick^[n] initialState).smoothPosition.x - initialState.position.x| +
        |(tick^[n] initialState).smoothPosition.y - initialState.position.y|)
      Filter.atTop (nhds 0) :=
  (tick_convergence (1/10) initialState (by norm_num) (by norm_num)
    (by norm_num [initialState, mkCursorManager, init])).2

end Cursor
